import Mathlib

/-!
Verification development for the LiveLab teleoperation frontend.

The first part embeds the browser-side handlers of the Landing page and the
static control page (loadConfigs, handleStartTeleoperation, handlePermissions)
as pure functions over an explicit component state and an explicit outcome of
each external effect (fetch result, media-permission result).  The second part
models, from the specification, the kinematic-model / pose-synchronizer /
session-controller core that the specification describes.
-/

/-- A toast notification shown to the operator, as produced by the useToast
hook: a title, a description, and whether the destructive variant was used. -/
structure Toast where
  title : String
  description : String
  destructive : Bool
deriving DecidableEq, Repr

/-- HTTP method of an outgoing request. -/
inductive HttpMethod where
  | get
  | post
deriving DecidableEq, Repr

/-- The JSON body sent by the begin-session call: exactly the four fields
serialized by JSON.stringify in handleStartTeleoperation and moveArm. -/
structure MoveArmBody where
  leader_port : String
  follower_port : String
  leader_config : String
  follower_config : String
deriving DecidableEq, Repr

/-- Body of an outgoing request: none for a GET, or the begin-session body. -/
inductive RequestBody where
  | empty
  | moveArm (b : MoveArmBody)
deriving DecidableEq, Repr

/-- An outgoing HTTP request issued by a handler via fetch. -/
structure Request where
  url : String
  method : HttpMethod
  body : RequestBody
deriving DecidableEq, Repr

/-- The React component state of the Landing page: the useState fields. -/
structure LandingState where
  robotModel : String
  showPermissionModal : Bool
  showTeleoperationModal : Bool
  leaderPort : String
  followerPort : String
  leaderConfig : String
  followerConfig : String
  leaderConfigs : List String
  followerConfigs : List String
  isLoadingConfigs : Bool
deriving DecidableEq, Repr

/-- Outcome of the begin-session fetch as observed by the handler: either the
fetch (or response.json) throws, or a response arrives with its ok flag and
the optional message field of its JSON body. -/
inductive FetchOutcome where
  | networkError
  | response (ok : Bool) (message : Option String)
deriving DecidableEq, Repr

/-- Outcome of the get-configs fetch: either the fetch throws, or a JSON body
arrives in which each of leader_configs and follower_configs may be absent. -/
inductive ConfigsOutcome where
  | networkError
  | response (leader_configs : Option (List String))
      (follower_configs : Option (List String))
deriving DecidableEq, Repr

/-- Everything a Landing-page handler run produces: the updated component
state, the toasts emitted, the requests issued, and where it navigated. -/
structure HandlerResult where
  state : LandingState
  toasts : List Toast
  requests : List Request
  navigatedTo : Option String
deriving DecidableEq, Repr

/-- The destructive toast emitted when a calibration config is unselected. -/
def missingConfigToast : Toast :=
  { title := "Missing Configuration",
    description := "Please select calibration configs for both leader and follower.",
    destructive := true }

/-- The destructive toast emitted when the begin-session fetch throws. -/
def connectionErrorToast : Toast :=
  { title := "Connection Error",
    description := "Could not connect to the backend server.",
    destructive := true }

/-- The destructive toast emitted when the get-configs fetch throws. -/
def errorLoadingConfigsToast : Toast :=
  { title := "Error Loading Configs",
    description := "Could not load calibration configs from the backend.",
    destructive := true }

/-- The begin-session request that handleStartTeleoperation issues: a POST to
the move-arm endpoint whose JSON body carries the four configuration fields
read from the component state. -/
def moveArmRequest (s : LandingState) : Request :=
  { url := "http://localhost:8000/move-arm",
    method := HttpMethod.post,
    body := RequestBody.moveArm
      { leader_port := s.leaderPort,
        follower_port := s.followerPort,
        leader_config := s.leaderConfig,
        follower_config := s.followerConfig } }

/-- Embedding of handleStartTeleoperation (Landing page).  A JS string is
falsy exactly when it is empty, so the missing-configuration guard fires when
either selected config is the empty string; in that case the handler toasts
and returns before any fetch.  Otherwise it POSTs the four-field body and
dispatches on the response: ok closes the modal and navigates to the
teleoperation view, non-ok toasts the failure, a thrown fetch toasts a
connection error. -/
def handleStartTeleoperation (s : LandingState) (f : FetchOutcome) :
    HandlerResult :=
  if s.leaderConfig = "" ∨ s.followerConfig = "" then
    { state := s,
      toasts := [missingConfigToast],
      requests := [],
      navigatedTo := none }
  else
    match f with
    | FetchOutcome.networkError =>
        { state := s,
          toasts := [connectionErrorToast],
          requests := [moveArmRequest s],
          navigatedTo := none }
    | FetchOutcome.response ok msg =>
        if ok then
          { state := { s with showTeleoperationModal := false },
            toasts := [{ title := "Teleoperation Started",
                         description :=
                           msg.getD "Successfully started teleoperation session.",
                         destructive := false }],
            requests := [moveArmRequest s],
            navigatedTo := some "/teleoperation" }
        else
          { state := s,
            toasts := [{ title := "Error Starting Teleoperation",
                         description :=
                           msg.getD "Failed to start teleoperation session.",
                         destructive := true }],
            requests := [moveArmRequest s],
            navigatedTo := none }

/-- The configuration-discovery request issued by loadConfigs: a plain GET. -/
def getConfigsRequest : Request :=
  { url := "http://localhost:8000/get-configs",
    method := HttpMethod.get,
    body := RequestBody.empty }

/-- Embedding of loadConfigs (Landing page).  It sets the loading flag, GETs
the configs, stores each returned list (an absent field falls back to the
empty list via the JS or-default), toasts on a thrown fetch leaving the stored
lists untouched, and clears the loading flag in the finally block on every
path. -/
def loadConfigs (s : LandingState) (o : ConfigsOutcome) : HandlerResult :=
  let loading := { s with isLoadingConfigs := true }
  match o with
  | ConfigsOutcome.networkError =>
      { state := { loading with isLoadingConfigs := false },
        toasts := [errorLoadingConfigsToast],
        requests := [getConfigsRequest],
        navigatedTo := none }
  | ConfigsOutcome.response lc fc =>
      { state := { loading with
                     leaderConfigs := lc.getD [],
                     followerConfigs := fc.getD [],
                     isLoadingConfigs := false },
        toasts := [],
        requests := [getConfigsRequest],
        navigatedTo := none }

/-- The toast emitted on the grant path of handlePermissions. -/
def permissionsGrantedToast : Toast :=
  { title := "Permissions Granted",
    description := "Camera and microphone access enabled. Entering control session...",
    destructive := false }

/-- The destructive toast emitted when getUserMedia rejects. -/
def mediaRejectedToast : Toast :=
  { title := "Permission Denied",
    description := "Camera and microphone access is required for robot control.",
    destructive := true }

/-- The destructive toast emitted when the operator clicks Continue without. -/
def continueWithoutToast : Toast :=
  { title := "Permission Denied",
    description := "You can proceed, but with limited functionality.",
    destructive := true }

/-- Outcome of the getUserMedia call: a stream whose tracks are identified by
numbers, or a rejection of the request. -/
inductive MediaOutcome where
  | granted (tracks : List Nat)
  | rejected
deriving DecidableEq, Repr

/-- One observable step of the handlePermissions run, in program order. -/
inductive PermEvent where
  | closeModal
  | requestMedia
  | stopTrack (id : Nat)
  | toast (t : Toast)
  | navigate (url : String)
deriving DecidableEq, Repr

/-- Embedding of handlePermissions (Landing page) as the ordered trace of its
observable steps.  It always closes the modal first.  With allow it requests
the media stream: on grant it stops every track of the stream, toasts, and
navigates to the control view; on rejection it only toasts the denial.
Without allow it toasts and navigates to the control view directly. -/
def handlePermissions (allow : Bool) (media : MediaOutcome) : List PermEvent :=
  PermEvent.closeModal ::
    (if allow then
      PermEvent.requestMedia ::
        (match media with
         | MediaOutcome.granted tracks =>
             tracks.map PermEvent.stopTrack ++
               [PermEvent.toast permissionsGrantedToast,
                PermEvent.navigate "/control"]
         | MediaOutcome.rejected => [PermEvent.toast mediaRejectedToast])
     else
       [PermEvent.toast continueWithoutToast, PermEvent.navigate "/control"])

/-- Tracks acquired during a handlePermissions run: the tracks of the granted
stream when the handler asked for one, nothing otherwise. -/
def acquiredTracks (allow : Bool) (media : MediaOutcome) : List Nat :=
  if allow then
    match media with
    | MediaOutcome.granted tracks => tracks
    | MediaOutcome.rejected => []
  else []

/-- Track ids stopped along a trace, in order. -/
def stoppedTracks (tr : List PermEvent) : List Nat :=
  tr.filterMap fun e =>
    match e with
    | PermEvent.stopTrack i => some i
    | _ => none

/-- Whether a trace contains a stopTrack event. -/
def hasStopTrack : List PermEvent → Bool
  | [] => false
  | PermEvent.stopTrack _ :: _ => true
  | _ :: rest => hasStopTrack rest

/-- Whether every stopTrack event of a trace happens before every navigation:
no stopTrack may appear after a navigate event. -/
def stopsBeforeNav : List PermEvent → Bool
  | [] => true
  | PermEvent.navigate _ :: rest => !hasStopTrack rest && stopsBeforeNav rest
  | _ :: rest => stopsBeforeNav rest

/-- Modelled from the spec: the joint types of the kinematic model; the
kinematic-model code itself is not part of the repository sources. -/
inductive JointType where
  | revolute
  | prismatic
  | fixedJoint
  | continuous
deriving DecidableEq, Repr

/-- Modelled from the spec: a joint connects a parent link to a child link,
has a type, an axis and, for non-fixed types, scalar limits; everything but
the value is immutable once loaded.  The kinematic-model code is missing from
the repository sources. -/
structure Joint where
  name : String
  jtype : JointType
  parentLink : String
  childLink : String
  axis : Rat × Rat × Rat
  lower : Rat
  upper : Rat
deriving DecidableEq, Repr

/-- Modelled from the spec: one entry of the pre-computed topological
traversal list of the link tree (design note of the spec); the root entry has
no parent link and no joint. -/
structure LinkInfo where
  link : String
  parent : Option String
  joint : Option String
deriving DecidableEq, Repr

/-- Modelled from the spec: a world transform as the formal composition of a
parent transform, a fixed link offset and a joint transform at the current
joint value; the spec fixes only this compositional shape, not a matrix
representation, so transforms are kept symbolic. -/
inductive Transform where
  | ident
  | offset (link : String)
  | jointT (joint : String) (value : Rat)
  | comp (a b : Transform)
deriving DecidableEq, Repr

/-- Lookup in an association list keyed by strings. -/
def lookupStr {α : Type} (n : String) : List (String × α) → Option α
  | [] => none
  | (k, w) :: rest => if k = n then some w else lookupStr n rest

/-- Set a key of an association list, keeping the existing position when the
key is present and appending otherwise. -/
def updateAssoc {α : Type} (l : List (String × α)) (n : String) (v : α) :
    List (String × α) :=
  match l with
  | [] => [(n, v)]
  | (k, w) :: rest =>
      if k = n then (k, v) :: rest else (k, w) :: updateAssoc rest n v

/-- Modelled from the spec: the kinematic model holds the immutable link and
joint structure (as a topological list plus joint table), the mutable joint
values, the derived transform cache, and the dirty flag; the kinematic-model
code is missing from the repository sources. -/
structure KinematicModel where
  topo : List LinkInfo
  joints : List Joint
  jointValues : List (String × Rat)
  transforms : List (String × Transform)
  dirty : Bool
deriving DecidableEq, Repr

/-- The joint of a model with a given name, if any. -/
def findJoint (m : KinematicModel) (name : String) : Option Joint :=
  m.joints.find? fun j => j.name == name

/-- Modelled from the spec: clamping to the limits of a joint; a continuous
joint has no limit, every other type clamps into the closed interval. -/
def clampValue (j : Joint) (v : Rat) : Rat :=
  match j.jtype with
  | JointType.continuous => v
  | _ => max j.lower (min j.upper v)

/-- Modelled from the spec: set_joint_value clamps the value to the limits of
the joint, never errors, and marks the derived transforms dirty; a command
for an unknown joint is skipped, not fatal.  The kinematic-model code is
missing from the repository sources. -/
def set_joint_value (m : KinematicModel) (name : String) (v : Rat) :
    KinematicModel :=
  match findJoint m name with
  | none => m
  | some j =>
      { m with
          jointValues := updateAssoc m.jointValues name (clampValue j v),
          dirty := true }

/-- Modelled from the spec: errors of the read accessors. -/
inductive ModelError where
  | unknownEntity (name : String)
deriving DecidableEq, Repr

/-- Modelled from the spec: joint_value reads the current value of a joint
and fails with an unknown-entity error for unrecognized names. -/
def joint_value (m : KinematicModel) (name : String) : Except ModelError Rat :=
  match lookupStr name m.jointValues with
  | some v => Except.ok v
  | none => Except.error (ModelError.unknownEntity name)

/-- Modelled from the spec: the single top-down traversal along the
pre-computed topological list, computing each world transform as parent
transform composed with the fixed offset composed with the joint transform at
the current joint value. -/
def computeTransforms (jv : List (String × Rat)) :
    List LinkInfo → List (String × Transform) → List (String × Transform)
  | [], acc => acc
  | li :: rest, acc =>
      let parentT :=
        match li.parent with
        | none => Transform.ident
        | some p => (lookupStr p acc).getD Transform.ident
      let t :=
        match li.joint with
        | none => Transform.comp parentT (Transform.offset li.link)
        | some jn =>
            Transform.comp parentT
              (Transform.comp (Transform.offset li.link)
                (Transform.jointT jn ((lookupStr jn jv).getD 0)))
      computeTransforms jv rest (acc ++ [(li.link, t)])

/-- Modelled from the spec: recompute_transforms rewrites the transform cache
from the current joint values in one top-down traversal and clears the dirty
flag, touching nothing else.  The kinematic-model code is missing from the
repository sources. -/
def recompute_transforms (m : KinematicModel) : KinematicModel :=
  { m with
      transforms := computeTransforms m.jointValues m.topo [],
      dirty := false }

/-- Modelled from the spec: link_transform reads the cached world transform
of a link and fails with an unknown-entity error for unrecognized names. -/
def link_transform (m : KinematicModel) (name : String) :
    Except ModelError Transform :=
  match lookupStr name m.transforms with
  | some t => Except.ok t
  | none => Except.error (ModelError.unknownEntity name)

/-- Modelled from the spec: a pose update arriving from the transport, a
timestamp plus a partial mapping of joint names to values; the
pose-synchronizer code is missing from the repository sources. -/
structure PoseUpdate where
  timestamp : Nat
  values : List (String × Rat)
deriving DecidableEq, Repr

/-- Modelled from the spec: the pose synchronizer keeps the timestamp of the
last applied batch and a staleness flag; the pose-synchronizer code is
missing from the repository sources. -/
structure PoseSynchronizer where
  lastApplied : Option Nat
  stale : Bool
deriving DecidableEq, Repr

/-- The synchronizer state at session start: nothing applied yet. -/
def initSync : PoseSynchronizer :=
  { lastApplied := none, stale := false }

/-- Apply every pair of a partial update to the model through
set_joint_value (which clamps and skips unknown joints). -/
def applyValues (m : KinematicModel) : List (String × Rat) → KinematicModel
  | [] => m
  | (n, v) :: rest => applyValues (set_joint_value m n v) rest

/-- Modelled from the spec: the pose synchronizer applies an inbound update
only when its timestamp is not older than the last applied one; an older
update is discarded, leaving both the synchronizer and the model untouched.
The pose-synchronizer code is missing from the repository sources. -/
def applyUpdate (sync : PoseSynchronizer) (m : KinematicModel)
    (u : PoseUpdate) : PoseSynchronizer × KinematicModel :=
  match sync.lastApplied with
  | some t =>
      if u.timestamp < t then (sync, m)
      else ({ sync with lastApplied := some u.timestamp }, applyValues m u.values)
  | none => ({ sync with lastApplied := some u.timestamp }, applyValues m u.values)

/-- Modelled from the spec: the session-controller states; the
session-controller code is missing from the repository sources. -/
inductive SessionState where
  | idle
  | connecting
  | active
  | reconnecting
  | closed
deriving DecidableEq, Repr

/-- Modelled from the spec: the session controller holds its state, the count
of failed retries of the current reconnect phase, the current backoff delay,
and how many terminal session failures it has reported to the UI; the
session-controller code is missing from the repository sources. -/
structure SessionController where
  state : SessionState
  retryCount : Nat
  backoffMs : Nat
  terminalReports : Nat
deriving DecidableEq, Repr

/-- Modelled from the spec: the fixed cap on reconnect attempts. -/
def retryCap : Nat := 5

/-- Modelled from the spec: the backoff delay of the first retry attempt. -/
def baseBackoffMs : Nat := 1000

/-- Modelled from the spec: a heartbeat timeout in the Active state moves the
controller to Reconnecting with a fresh retry budget and base backoff; in any
other state it is ignored. -/
def onHeartbeatTimeout (c : SessionController) : SessionController :=
  if c.state = SessionState.active then
    { c with
        state := SessionState.reconnecting,
        retryCount := 0,
        backoffMs := baseBackoffMs }
  else c

/-- Modelled from the spec: a failed retry attempt in the Reconnecting state
either doubles the backoff and counts the attempt, or, once the fixed cap of
attempts is exhausted, moves the controller to Closed and reports the
terminal session failure to the UI; in any other state it is ignored. -/
def onRetryFailure (c : SessionController) : SessionController :=
  if c.state = SessionState.reconnecting then
    if retryCap ≤ c.retryCount + 1 then
      { c with
          state := SessionState.closed,
          retryCount := c.retryCount + 1,
          terminalReports := c.terminalReports + 1 }
    else
      { c with
          retryCount := c.retryCount + 1,
          backoffMs := c.backoffMs * 2 }
  else c

/-- Claim C2: starting teleoperation with either calibration config
unselected (empty string) reports a missing-configuration error to the
operator and returns without issuing any request, leaving the state
untouched, so the error is raised before any transport connection is
attempted. -/
theorem missing_config_blocks_session (s : LandingState) (f : FetchOutcome)
    (h : s.leaderConfig = "" ∨ s.followerConfig = "") :
    (handleStartTeleoperation s f).requests = []
    ∧ (handleStartTeleoperation s f).toasts = [missingConfigToast]
    ∧ (handleStartTeleoperation s f).state = s
    ∧ (handleStartTeleoperation s f).navigatedTo = none := by
  unfold handleStartTeleoperation
  rw [if_pos h]
  exact ⟨rfl, rfl, rfl, rfl⟩

/-- A Landing state with a selected follower config but no leader config. -/
def demoMissingLeader : LandingState :=
  { robotModel := "SO100",
    showPermissionModal := false,
    showTeleoperationModal := true,
    leaderPort := "/dev/tty.usbmodem5A460816421",
    followerPort := "/dev/tty.usbmodem5A460816621",
    leaderConfig := "",
    followerConfig := "follower_so100",
    leaderConfigs := ["leader_so100"],
    followerConfigs := ["follower_so100"],
    isLoadingConfigs := false }

theorem missing_config_blocks_session_witness :
    (demoMissingLeader.leaderConfig = "" ∨ demoMissingLeader.followerConfig = "")
    ∧ (handleStartTeleoperation demoMissingLeader FetchOutcome.networkError).requests = [] :=
  ⟨Or.inl rfl,
   (missing_config_blocks_session demoMissingLeader FetchOutcome.networkError
      (Or.inl rfl)).1⟩

/-- Claim C3: with both configs selected, the begin-session call issues
exactly one POST to the move-arm endpoint whose body is exactly the four
fields leader_port, follower_port, leader_config and follower_config, and the
handler surfaces the message field of the response: an ok response closes the
configuration dialog and navigates to the teleoperation view, a non-ok
response is reported as a failure without navigating. -/
theorem begin_session_request_response (s : LandingState) (ok : Bool)
    (msg : Option String)
    (h1 : ¬ s.leaderConfig = "") (h2 : ¬ s.followerConfig = "") :
    (handleStartTeleoperation s (FetchOutcome.response ok msg)).requests
        = [moveArmRequest s]
    ∧ (handleStartTeleoperation s (FetchOutcome.response ok msg)).toasts
        = [if ok then
             { title := "Teleoperation Started",
               description := msg.getD "Successfully started teleoperation session.",
               destructive := false }
           else
             { title := "Error Starting Teleoperation",
               description := msg.getD "Failed to start teleoperation session.",
               destructive := true }]
    ∧ (handleStartTeleoperation s (FetchOutcome.response ok msg)).navigatedTo
        = (if ok then some "/teleoperation" else none)
    ∧ (handleStartTeleoperation s (FetchOutcome.response ok msg)).state.showTeleoperationModal
        = (if ok then false else s.showTeleoperationModal) := by
  have hcond : ¬ (s.leaderConfig = "" ∨ s.followerConfig = "") := by
    intro hor
    exact hor.elim h1 h2
  unfold handleStartTeleoperation
  rw [if_neg hcond]
  cases ok
  · exact ⟨rfl, rfl, rfl, rfl⟩
  · exact ⟨rfl, rfl, rfl, rfl⟩

/-- A Landing state with both calibration configs selected. -/
def demoReady : LandingState :=
  { robotModel := "SO100",
    showPermissionModal := false,
    showTeleoperationModal := true,
    leaderPort := "/dev/tty.usbmodem5A460816421",
    followerPort := "/dev/tty.usbmodem5A460816621",
    leaderConfig := "leader_so100",
    followerConfig := "follower_so100",
    leaderConfigs := ["leader_so100"],
    followerConfigs := ["follower_so100"],
    isLoadingConfigs := false }

theorem begin_session_request_response_witness :
    (¬ demoReady.leaderConfig = "") ∧ (¬ demoReady.followerConfig = "")
    ∧ (handleStartTeleoperation demoReady
        (FetchOutcome.response true (some "Teleoperation started"))).requests
        = [moveArmRequest demoReady] :=
  ⟨by decide, by decide,
   (begin_session_request_response demoReady true (some "Teleoperation started")
      (by decide) (by decide)).1⟩

/-- Claim C4: loading configurations issues exactly one GET request to the
get-configs endpoint, stores the returned leader and follower config lists
for the configuration UI, and mutates no component state other than those two
lists and the loading flag. -/
theorem loadConfigs_readonly :
    (∀ (s : LandingState) (o : ConfigsOutcome),
        (loadConfigs s o).requests = [getConfigsRequest]
        ∧ getConfigsRequest.method = HttpMethod.get
        ∧ getConfigsRequest.url = "http://localhost:8000/get-configs"
        ∧ (loadConfigs s o).navigatedTo = none
        ∧ (loadConfigs s o).state.robotModel = s.robotModel
        ∧ (loadConfigs s o).state.showPermissionModal = s.showPermissionModal
        ∧ (loadConfigs s o).state.showTeleoperationModal = s.showTeleoperationModal
        ∧ (loadConfigs s o).state.leaderPort = s.leaderPort
        ∧ (loadConfigs s o).state.followerPort = s.followerPort
        ∧ (loadConfigs s o).state.leaderConfig = s.leaderConfig
        ∧ (loadConfigs s o).state.followerConfig = s.followerConfig)
    ∧ (∀ (s : LandingState) (lc fc : List String),
        (loadConfigs s (ConfigsOutcome.response (some lc) (some fc))).state.leaderConfigs = lc
        ∧ (loadConfigs s (ConfigsOutcome.response (some lc) (some fc))).state.followerConfigs = fc) := by
  constructor
  · intro s o
    cases o
    · exact ⟨rfl, rfl, rfl, rfl, rfl, rfl, rfl, rfl, rfl, rfl, rfl⟩
    · exact ⟨rfl, rfl, rfl, rfl, rfl, rfl, rfl, rfl, rfl, rfl, rfl⟩
  · intro s lc fc
    exact ⟨rfl, rfl⟩

/-- Claim C10: loadConfigs clears the loading flag on every exit path; a
response body lacking leader_configs or follower_configs stores the empty
list for the missing field; a thrown fetch leaves both previously stored
config lists unchanged. -/
theorem loadConfigs_finally_and_defaults :
    (∀ (s : LandingState) (o : ConfigsOutcome),
        (loadConfigs s o).state.isLoadingConfigs = false)
    ∧ (∀ (s : LandingState) (fc : Option (List String)),
        (loadConfigs s (ConfigsOutcome.response none fc)).state.leaderConfigs = [])
    ∧ (∀ (s : LandingState) (lc : Option (List String)),
        (loadConfigs s (ConfigsOutcome.response lc none)).state.followerConfigs = [])
    ∧ (∀ (s : LandingState),
        (loadConfigs s ConfigsOutcome.networkError).state.leaderConfigs = s.leaderConfigs
        ∧ (loadConfigs s ConfigsOutcome.networkError).state.followerConfigs = s.followerConfigs
        ∧ (loadConfigs s ConfigsOutcome.networkError).toasts = [errorLoadingConfigsToast]) := by
  refine ⟨?_, ?_, ?_, ?_⟩
  · intro s o
    cases o
    · rfl
    · rfl
  · intro s fc
    rfl
  · intro s lc
    rfl
  · intro s
    exact ⟨rfl, rfl, rfl⟩

/-- Claim C1 counterexample: with allow clicked and the browser rejecting the
getUserMedia request, the handler never navigates to the control view, so the
operator is blocked rather than proceeding in a degraded mode. -/
theorem media_rejection_blocks_counterexample :
    PermEvent.navigate "/control" ∉ handlePermissions true MediaOutcome.rejected := by
  decide

/-- Claim C1 (amended): when the operator declines access in the permission
modal, the handler still navigates to the control view in a degraded mode
after reporting the limitation; but when the operator allows and the browser
rejects the getUserMedia request, the handler reports the denial and does not
navigate to the control view. -/
theorem permission_denial_outcomes :
    (∀ media : MediaOutcome,
        PermEvent.navigate "/control" ∈ handlePermissions false media
        ∧ PermEvent.toast continueWithoutToast ∈ handlePermissions false media)
    ∧ PermEvent.navigate "/control" ∉ handlePermissions true MediaOutcome.rejected
    ∧ PermEvent.toast mediaRejectedToast ∈ handlePermissions true MediaOutcome.rejected := by
  refine ⟨?_, by decide, by decide⟩
  intro media
  constructor
  · exact List.mem_cons_of_mem _ (List.mem_cons_of_mem _ (List.mem_cons_self _ _))
  · exact List.mem_cons_of_mem _ (List.mem_cons_self _ _)

/-- Tracks stopped along the mapped stop list followed by toast and
navigation are exactly the mapped tracks. -/
theorem stoppedTracks_stops_then_nav (ts : List Nat) (t : Toast) (u : String) :
    stoppedTracks (ts.map PermEvent.stopTrack
      ++ [PermEvent.toast t, PermEvent.navigate u]) = ts := by
  induction ts with
  | nil => rfl
  | cons x rest ih =>
      show x :: stoppedTracks (rest.map PermEvent.stopTrack
        ++ [PermEvent.toast t, PermEvent.navigate u]) = x :: rest
      rw [ih]

/-- In a trace of stops followed by a toast and a final navigation, every
stop happens before the navigation. -/
theorem stopsBeforeNav_stops_then_nav (ts : List Nat) (t : Toast) (u : String) :
    stopsBeforeNav (ts.map PermEvent.stopTrack
      ++ [PermEvent.toast t, PermEvent.navigate u]) = true := by
  induction ts with
  | nil => rfl
  | cons x rest ih => exact ih

/-- Claim C9: on every path of handlePermissions the tracks it stops are
exactly the tracks of the stream it acquired (so no acquired track remains
live when the handler completes), and every stop happens before any
navigation. -/
theorem permissions_stop_all_tracks (allow : Bool) (media : MediaOutcome) :
    stoppedTracks (handlePermissions allow media) = acquiredTracks allow media
    ∧ stopsBeforeNav (handlePermissions allow media) = true := by
  cases allow
  · cases media
    · exact ⟨rfl, rfl⟩
    · exact ⟨rfl, rfl⟩
  · cases media with
    | granted ts =>
        exact ⟨stoppedTracks_stops_then_nav ts permissionsGrantedToast "/control",
               stopsBeforeNav_stops_then_nav ts permissionsGrantedToast "/control"⟩
    | rejected => exact ⟨rfl, rfl⟩

/-- Looking up a key right after setting it yields the stored value. -/
theorem lookupStr_updateAssoc {α : Type} (l : List (String × α)) (n : String)
    (v : α) : lookupStr n (updateAssoc l n v) = some v := by
  induction l with
  | nil => simp [updateAssoc, lookupStr]
  | cons p rest ih =>
      obtain ⟨k, w⟩ := p
      by_cases hk : k = n
      · simp [updateAssoc, lookupStr, hk]
      · simp [updateAssoc, lookupStr, hk, ih]

/-- Claim C5: for a joint with limits and an input value outside them,
set_joint_value stores the clamped bound (the lower limit below, the upper
limit above), never the raw input, returns normally, and marks the derived
transforms dirty. -/
theorem set_joint_value_clamps (m : KinematicModel) (name : String) (j : Joint)
    (v : Rat) (hj : findJoint m name = some j)
    (hc : j.jtype ≠ JointType.continuous) (hl : j.lower ≤ j.upper)
    (hout : v < j.lower ∨ j.upper < v) :
    joint_value (set_joint_value m name v) name
        = Except.ok (if v < j.lower then j.lower else j.upper)
    ∧ joint_value (set_joint_value m name v) name ≠ Except.ok v
    ∧ (set_joint_value m name v).dirty = true := by
  have hmm : max j.lower (min j.upper v) = if v < j.lower then j.lower else j.upper := by
    rcases hout with h | h
    · rw [if_pos h, min_eq_right (le_of_lt (lt_of_lt_of_le h hl)),
        max_eq_left (le_of_lt h)]
    · rw [if_neg (not_lt.mpr (le_of_lt (lt_of_le_of_lt hl h))),
        min_eq_left (le_of_lt h), max_eq_right hl]
  have hclamp : clampValue j v = if v < j.lower then j.lower else j.upper := by
    unfold clampValue
    cases hjt : j.jtype with
    | continuous => exact absurd hjt hc
    | revolute => exact hmm
    | prismatic => exact hmm
    | fixedJoint => exact hmm
  have hset : set_joint_value m name v
      = { m with jointValues := updateAssoc m.jointValues name (clampValue j v),
                 dirty := true } := by
    unfold set_joint_value
    rw [hj]
  have hjv : joint_value (set_joint_value m name v) name
      = Except.ok (clampValue j v) := by
    rw [hset]
    simp [joint_value, lookupStr_updateAssoc]
  refine ⟨?_, ?_, ?_⟩
  · rw [hjv, hclamp]
  · rw [hjv, hclamp]
    rcases hout with h | h
    · rw [if_pos h]
      intro hcontra
      exact absurd (Except.ok.inj hcontra) (ne_of_gt h)
    · rw [if_neg (not_lt.mpr (le_of_lt (lt_of_le_of_lt hl h)))]
      intro hcontra
      exact absurd (Except.ok.inj hcontra) (ne_of_lt h)
  · rw [hset]

/-- The one-revolute-joint demo of the spec scenario: limits 0 to 90. -/
def demoJoint : Joint :=
  { name := "joint1",
    jtype := JointType.revolute,
    parentLink := "base",
    childLink := "arm",
    axis := (0, 0, 1),
    lower := 0,
    upper := 90 }

/-- A two-link, one-revolute-joint kinematic model. -/
def demoModel : KinematicModel :=
  { topo := [{ link := "base", parent := none, joint := none },
             { link := "arm", parent := some "base", joint := some "joint1" }],
    joints := [demoJoint],
    jointValues := [("joint1", 0)],
    transforms := [],
    dirty := false }

theorem set_joint_value_clamps_witness :
    (findJoint demoModel "joint1" = some demoJoint
      ∧ demoJoint.jtype ≠ JointType.continuous
      ∧ demoJoint.lower ≤ demoJoint.upper
      ∧ ((120 : Rat) < demoJoint.lower ∨ demoJoint.upper < (120 : Rat)))
    ∧ joint_value (set_joint_value demoModel "joint1" 120) "joint1"
        = Except.ok (if (120 : Rat) < demoJoint.lower then demoJoint.lower else demoJoint.upper)
    ∧ (if (120 : Rat) < demoJoint.lower then demoJoint.lower else demoJoint.upper) = 90 :=
  ⟨⟨by decide, by decide, by decide, by decide⟩,
   (set_joint_value_clamps demoModel "joint1" demoJoint 120 (by decide) (by decide)
      (by decide) (by decide)).1,
   by decide⟩

/-- Claim C6: the pose synchronizer applies updates in non-decreasing
timestamp order: after applying U1, a U2 with an older timestamp is discarded
so both the synchronizer and the joint values still reflect U1; and whatever
arrives, the last-applied timestamp never decreases. -/
theorem pose_sync_rejects_stale (m : KinematicModel) (u1 u2 : PoseUpdate)
    (h : u2.timestamp < u1.timestamp) :
    applyUpdate (applyUpdate initSync m u1).1 (applyUpdate initSync m u1).2 u2
        = applyUpdate initSync m u1
    ∧ (∀ (sync : PoseSynchronizer) (m0 : KinematicModel) (u : PoseUpdate)
        (t : Nat), sync.lastApplied = some t →
          ∃ t2, (applyUpdate sync m0 u).1.lastApplied = some t2 ∧ t ≤ t2) := by
  constructor
  · have h1 : applyUpdate initSync m u1
        = ({ lastApplied := some u1.timestamp, stale := false },
           applyValues m u1.values) := rfl
    rw [h1]
    simp [applyUpdate, h]
  · intro sync m0 u t ht
    by_cases hlt : u.timestamp < t
    · exact ⟨t, by simp [applyUpdate, ht, hlt], le_refl t⟩
    · exact ⟨u.timestamp, by simp [applyUpdate, ht, hlt], le_of_not_lt hlt⟩

/-- The newer of the two scenario updates: timestamp 5 sets joint1 to 45. -/
def demoU1 : PoseUpdate := { timestamp := 5, values := [("joint1", 45)] }

/-- The stale scenario update: timestamp 3 would rewind joint1 to 10. -/
def demoU2 : PoseUpdate := { timestamp := 3, values := [("joint1", 10)] }

theorem pose_sync_rejects_stale_witness :
    demoU2.timestamp < demoU1.timestamp
    ∧ applyUpdate (applyUpdate initSync demoModel demoU1).1
        (applyUpdate initSync demoModel demoU1).2 demoU2
        = applyUpdate initSync demoModel demoU1 :=
  ⟨by decide,
   (pose_sync_rejects_stale demoModel demoU1 demoU2 (by decide)).1⟩

/-- Claim C8: recompute_transforms is idempotent and effect-free beyond the
transform cache: a second call with no intervening mutation produces the
identical transform cache, and a call leaves the structure and the joint
values untouched. -/
theorem recompute_transforms_idempotent (m : KinematicModel) :
    (recompute_transforms (recompute_transforms m)).transforms
        = (recompute_transforms m).transforms
    ∧ (recompute_transforms m).topo = m.topo
    ∧ (recompute_transforms m).joints = m.joints
    ∧ (recompute_transforms m).jointValues = m.jointValues := by
  exact ⟨rfl, rfl, rfl, rfl⟩

/-- Iterated failed retry attempts of the session controller. -/
def retryFailN : Nat → SessionController → SessionController
  | 0, c => c
  | Nat.succ n, c => retryFailN n (onRetryFailure c)

/-- A closed controller absorbs further retry failures unchanged. -/
theorem retryFailN_closed (k : Nat) (c : SessionController)
    (hc : c.state = SessionState.closed) : retryFailN k c = c := by
  induction k with
  | zero => rfl
  | succ n ih =>
      have hstep : onRetryFailure c = c := by
        simp [onRetryFailure, hc]
      show retryFailN n (onRetryFailure c) = c
      rw [hstep]
      exact ih

/-- From a fresh Reconnecting controller, any number of failures at or above
the cap ends Closed, with the retry count frozen at the cap and exactly one
terminal report added. -/
theorem retryFailN_cap (bo tr : Nat) (n : Nat) (hn : 5 ≤ n) :
    (retryFailN n ⟨SessionState.reconnecting, 0, bo, tr⟩).state = SessionState.closed
    ∧ (retryFailN n ⟨SessionState.reconnecting, 0, bo, tr⟩).retryCount = retryCap
    ∧ (retryFailN n ⟨SessionState.reconnecting, 0, bo, tr⟩).terminalReports = tr + 1 := by
  obtain ⟨k, hk⟩ := Nat.le.dest hn
  have hn2 : n = k + 5 := by omega
  subst hn2
  have hchain : retryFailN (k + 5)
        (⟨SessionState.reconnecting, 0, bo, tr⟩ : SessionController)
      = retryFailN k ⟨SessionState.closed, 5, bo * 2 * 2 * 2 * 2, tr + 1⟩ := rfl
  rw [hchain, retryFailN_closed k _ rfl]
  exact ⟨rfl, rfl, rfl⟩

/-- Claim C7: a heartbeat loss in Active moves the controller to
Reconnecting, and after the fixed cap of five failed retry attempts it always
ends Closed with the terminal session failure reported to the UI exactly
once; retrying never continues beyond the cap. -/
theorem session_retry_cap_closes (c : SessionController) (n : Nat)
    (hs : c.state = SessionState.active) (hn : 5 ≤ n) :
    (onHeartbeatTimeout c).state = SessionState.reconnecting
    ∧ (retryFailN n (onHeartbeatTimeout c)).state = SessionState.closed
    ∧ (retryFailN n (onHeartbeatTimeout c)).retryCount = retryCap
    ∧ (retryFailN n (onHeartbeatTimeout c)).terminalReports = c.terminalReports + 1 := by
  obtain ⟨st, rc, bo, tr⟩ := c
  have hs2 : st = SessionState.active := hs
  subst hs2
  have hh : onHeartbeatTimeout ⟨SessionState.active, rc, bo, tr⟩
      = ⟨SessionState.reconnecting, 0, baseBackoffMs, tr⟩ := rfl
  rw [hh]
  have hcap := retryFailN_cap baseBackoffMs tr n hn
  exact ⟨rfl, hcap.1, hcap.2.1, hcap.2.2⟩

/-- An active controller that has never reported a terminal failure. -/
def demoController : SessionController :=
  { state := SessionState.active,
    retryCount := 0,
    backoffMs := 500,
    terminalReports := 0 }

theorem session_retry_cap_closes_witness :
    demoController.state = SessionState.active ∧ 5 ≤ 7
    ∧ (retryFailN 7 (onHeartbeatTimeout demoController)).state = SessionState.closed
    ∧ (retryFailN 7 (onHeartbeatTimeout demoController)).terminalReports
        = demoController.terminalReports + 1 :=
  ⟨rfl, by decide,
   (session_retry_cap_closes demoController 7 rfl (by decide)).2.1,
   (session_retry_cap_closes demoController 7 rfl (by decide)).2.2.2⟩
